import Mathlib

/-!
Verification of the Skywatcher mount protocol driver
(`src/drivers/telescope/skywatcherAPI.{h,cpp}`).

The C++ code is shallowly embedded: pure helpers become Lean functions on
`ℕ`/`ℤ`/`ℚ`/`List Char`, the mutable per-connection driver object becomes an
explicit state record threaded through the motion operations, and the serial
transport becomes an oracle supplying the response of each exchange.

Numeric conventions used throughout the embedding:

* C `unsigned long` arithmetic is `ℕ` with an explicit `% 2 ^ 64` where the
  source can wrap (the `HEX` macro applied to arbitrary characters).
* C `long` values are `ℤ`; a C cast `(long)` of a floating-point value
  truncates toward zero and is modelled by `truncQ`.
* C `double` arithmetic is modelled by exact arithmetic in `ℚ`.  The constant
  `M_PI` is the IEEE-754 double nearest π, namely `884279719003555 / 2 ^ 48`,
  which is itself a rational number.  Exact rational evaluation ignores the
  rounding of intermediate double operations; every numeric fact proved below
  is insensitive to that rounding (the discrepancies at issue are factors such
  as 5× or 0.655×, many orders of magnitude above one ulp, and each concrete
  truncated value computed below sits far from an integer boundary).
-/

namespace Skywatcher

/-! ### Wire codec (skywatcherAPI.cpp lines 82-126, 539-545) -/

/-- Model of the `HEX(c)` macro of `BCDstr2long`/`Highstr2long`:
`(((c) < 'A') ? ((c) - '0') : ((c) - 'A') + 10)`.  The macro produces a C
`int` which the caller immediately combines into an `unsigned long`; the
conversion wraps modulo `2 ^ 64`, which matters when the character is not a
hex digit (for example `' '` yields a huge value). -/
def hexVal (c : Char) : ℕ :=
  ((if c.toNat < 65 then (c.toNat : ℤ) - 48 else (c.toNat : ℤ) - 65 + 10) % (2 ^ 64)).toNat

/-- Model of `SkywatcherAPI::BCDstr2long` (lines 82-107).  A string whose size
is not 6 yields 0; otherwise the six characters are combined in the source's
byte-swapped order `[4][5] [2][3] [0][1]`, each step shifting the
`unsigned long` accumulator left by 4 and or-ing in the next `HEX` value. -/
def BCDstr2long (s : List Char) : ℕ :=
  match s with
  | [c0, c1, c2, c3, c4, c5] =>
    let v : ℕ := hexVal c4
    let v : ℕ := (v <<< 4) % 2 ^ 64 ||| hexVal c5
    let v : ℕ := (v <<< 4) % 2 ^ 64 ||| hexVal c2
    let v : ℕ := (v <<< 4) % 2 ^ 64 ||| hexVal c3
    let v : ℕ := (v <<< 4) % 2 ^ 64 ||| hexVal c0
    let v : ℕ := (v <<< 4) % 2 ^ 64 ||| hexVal c1
    v
  | _ => 0

/-- Model of `SkywatcherAPI::Highstr2long` (lines 109-126).  A string of size
less than 2 yields 0; otherwise the first two characters form the value. -/
def Highstr2long (s : List Char) : ℕ :=
  match s with
  | c0 :: c1 :: _ => (hexVal c0 <<< 4) % 2 ^ 64 ||| hexVal c1
  | _ => 0

/-- One digit of the `std::hex << std::uppercase` formatting used by
`Long2BCDstr`: digits `0`-`9` then `A`-`F`. -/
def hexDigitChar (n : ℕ) : Char :=
  if n < 10 then Char.ofNat (48 + n) else Char.ofNat (55 + n)

/-- The two uppercase hex characters `std::setw(2) << std::setfill('0')`
produces for one byte value (`b < 256` at every call site, because the byte is
masked with `0xff` first). -/
def byteToHexPair (b : ℕ) : List Char :=
  [hexDigitChar (b / 16), hexDigitChar (b % 16)]

/-- Model of `SkywatcherAPI::Long2BCDstr` (lines 539-545): the bytes
`Number & 0xff`, `(Number & 0xff00) >> 8`, `(Number & 0xff0000) >> 16` are
emitted low byte first, each as two uppercase hex characters.  The C parameter
is a `long`; the function is modelled on `ℕ` (the driver only encodes
non-negative values, where the C two's-complement masking agrees with the
masking on `ℕ`). -/
def Long2BCDstr (n : ℕ) : List Char :=
  byteToHexPair (n &&& 0xff) ++ byteToHexPair ((n &&& 0xff00) >>> 8) ++
    byteToHexPair ((n &&& 0xff0000) >>> 16)

/-! ### Physical constants (skywatcherAPI.h lines 66-69) -/

/-- The IEEE-754 double value of `M_PI`, an exact rational. -/
def mpi : ℚ := 884279719003555 / 281474976710656

/-- Model of `SIDEREALRATE { (2 * M_PI / 86164.09065) }` (header line 67),
in radians per second. -/
def SIDEREALRATE : ℚ := 2 * mpi / 86164.09065

/-- Model of `MAX_SPEED { 500.0 }` (header line 68). -/
def MAX_SPEED : ℚ := 500

/-- Model of `LOW_SPEED_MARGIN { 128.0 * SIDEREALRATE }` (header line 69). -/
def LOW_SPEED_MARGIN : ℚ := 128 * SIDEREALRATE

/-- A C cast `(long)` of a floating value: truncation toward zero. -/
def truncQ (q : ℚ) : ℤ :=
  if q < 0 then -⌊-q⌋ else ⌊q⌋

/-- Reinterpretation of an `unsigned long` bit pattern as the C `long` it is
assigned to (`long Microsteps = BCDstr2long(Response)`), two's complement. -/
def toSigned64 (n : ℕ) : ℤ :=
  if n < 2 ^ 63 then (n : ℤ) else (n : ℤ) - 2 ^ 64

/-! ### Axis identity and status (skywatcherAPI.h lines 38-64, cpp lines 33-55) -/

/-- The two axes, `AXIS1 = 0`, `AXIS2 = 1`. -/
inductive AXISID
  | AXIS1
  | AXIS2
deriving DecidableEq, Repr

/-- The `AXISSTATUS` struct (header lines 38-55). -/
structure AXISSTATUS where
  FullStop : Bool
  Slewing : Bool
  SlewingTo : Bool
  SlewingForward : Bool
  HighSpeed : Bool
  NotInitialized : Bool
deriving DecidableEq, Repr

/-- The `AXISSTATUS` default constructor (header lines 40-44). -/
def initAxisStatus : AXISSTATUS :=
  ⟨false, false, false, false, false, true⟩

/-- Model of `AXISSTATUS::SetFullStop` (cpp lines 33-37). -/
def AXISSTATUS.SetFullStop (a : AXISSTATUS) : AXISSTATUS :=
  { a with FullStop := true, SlewingTo := false, Slewing := false }

/-- Model of `AXISSTATUS::SetSlewing` (cpp lines 39-46). -/
def AXISSTATUS.SetSlewing (a : AXISSTATUS) (forward highspeed : Bool) : AXISSTATUS :=
  { a with FullStop := false, SlewingTo := false, Slewing := true,
           SlewingForward := forward, HighSpeed := highspeed }

/-- Model of `AXISSTATUS::SetSlewingTo` (cpp lines 48-55). -/
def AXISSTATUS.SetSlewingTo (a : AXISSTATUS) (forward highspeed : Bool) : AXISSTATUS :=
  { a with FullStop := false, Slewing := false, SlewingTo := true,
           SlewingForward := forward, HighSpeed := highspeed }

/-- The three response bytes of a legacy `:f` status query that
`SkywatcherAPI::GetStatus` inspects (`Response[0..2]`, after the echo
character has been stripped). -/
structure StatusResponse where
  b0 : ℕ
  b1 : ℕ
  b2 : ℕ
deriving DecidableEq

/-- The pure flag decoding performed by `SkywatcherAPI::GetStatus`
(cpp lines 359-407) on a previous status and a fresh response.  (The encoder
refresh that the source performs when a slew-to just finished does not touch
any status flag; it is modelled separately in `getStatusM`.) -/
def decodeStatus (prev : AXISSTATUS) (r : StatusResponse) : AXISSTATUS :=
  let a :=
    if r.b1 &&& 0x01 ≠ 0 then
      if r.b0 &&& 0x01 ≠ 0 then
        { prev with FullStop := false, Slewing := true, SlewingTo := false }
      else
        { prev with FullStop := false, SlewingTo := true, Slewing := false }
    else
      { prev with FullStop := true, Slewing := false, SlewingTo := false }
  let a := { a with SlewingForward := decide (r.b0 &&& 0x02 = 0) }
  let a := { a with HighSpeed := decide (r.b0 &&& 0x04 ≠ 0) }
  { a with NotInitialized := decide (r.b2 &&& 1 = 0) }

/-- Exactly one of the three motion-phase flags is set. -/
def exactlyOnePhase (a : AXISSTATUS) : Prop :=
  (if a.FullStop then 1 else 0) + (if a.Slewing then 1 else 0) +
    (if a.SlewingTo then 1 else 0) = 1

/-! ### Calibration (skywatcherAPI.cpp lines 164-167, 228-272, 521-523) -/

/-- The `_114GT` mount-type code (header line 289). -/
def _114GT : ℕ := 0x82

/-- Model of `SkywatcherAPI::IsMerlinMount` (cpp lines 164-167):
`MountCode >= 0x80 && MountCode < 0x90`. -/
def IsMerlinMount (mountCode : ℕ) : Bool :=
  decide (0x80 ≤ mountCode) && decide (mountCode < 0x90)

/-- The validation and mount-specific overrides that
`SkywatcherAPI::GetMicrostepsPerRevolution` (cpp lines 249-261) applies to the
firmware-reported resolution before storing it: a zero reading is a terminal
failure (`none`); a `_114GT` mount replaces the reading with `0x205318`; a
Merlin-range mount then scales by `(long)((double)tmp * 0.655)`.  The double
literal `0.655` is modelled by the exact rational `131 / 200`; the nearest
double differs from it by less than `2 ^ (-53)`, which cannot change the
truncated product at any value this function is applied to below (the products
computed in the theorems sit more than `10 ^ (-3)` away from an integer).
`firmwareValue` is the decoded reading already stored in the C `long`. -/
def microstepsPerRevolutionStored (mountCode : ℕ) (firmwareValue : ℤ) : Option ℤ :=
  if firmwareValue = 0 then none
  else
    let t1 : ℤ := if mountCode = _114GT then 0x205318 else firmwareValue
    let t2 : ℤ := if IsMerlinMount mountCode then truncQ ((t1 : ℚ) * (131 / 200)) else t1
    some t2

/-- The `MicrostepsPerRadian` conversion factor derived in
`GetMicrostepsPerRevolution` (cpp line 263):
`tmpMicrostepsPerRevolution / (2 * M_PI)`. -/
def MicrostepsPerRadianCalc (m : ℕ) : ℚ :=
  m / (2 * mpi)

/-- Model of the `LowSpeedGotoMargin` computation at the end of
`SkywatcherAPI::InitMount` (cpp lines 521-523):
`(long)(640 * SIDEREALRATE * MicrostepsPerRadian[axis])`. -/
def LowSpeedGotoMarginCalc (microstepsPerRadian : ℚ) : ℤ :=
  truncQ (640 * SIDEREALRATE * microstepsPerRadian)

/-! ### Transport exchange with retries (skywatcherAPI.cpp lines 902-979) -/

/-- `SKYWATCHER_MAX_RETRTY {3}` (header line 332), spelled as in the source. -/
def SKYWATCHER_MAX_RETRTY : ℕ := 3

/-- A stub byte transport for one exchange: whether the `tty_write_string` of
attempt `i` succeeds, and what `tty_read_section` of attempt `i` returns
(`none` models a tty error or timeout, `some bytes` a successful read of
`bytes`, the terminating `0x0D` included). -/
structure SkyTransport where
  writeOk : ℕ → Bool
  readResult : ℕ → Option (List Char)

/-- Observable steps of `TalkWithAxis`, in order of occurrence. -/
inductive TalkEvent
  | flushInput
  | writeAttempt (ok : Bool)
  | readAttempt (bytesRead : ℕ)
  | readError
  | backoffMs (ms : ℕ)
deriving DecidableEq, Repr

/-- The retry loop of `SkywatcherAPI::TalkWithAxis` (cpp lines 917-958).
`i` is the value of the `retries` loop counter, `fuel` the number of loop
iterations still permitted (`fuel = 1` on the final attempt, whose failure is
terminal).  The top-level call is `talkLoop tr 0 SKYWATCHER_MAX_RETRTY`, so
the `fuel = 0` base case is never reached; it is a definitional filler.
Each iteration starts with `tcflush`; a failed write, a failed read, or a
short read (fewer than 2 bytes) sleeps 100 ms and retries unless this was the
final attempt.  Returns the raw bytes of the successful read, the number of
attempts performed, and the event trace. -/
def talkLoop (tr : SkyTransport) : ℕ → ℕ → Option (List Char) × ℕ × List TalkEvent
  | i, 0 => (none, i, [])
  | i, fuel + 1 =>
    if ¬ tr.writeOk i then
      if fuel = 0 then
        (none, i + 1, [TalkEvent.flushInput, TalkEvent.writeAttempt false])
      else
        let (r, n, evs) := talkLoop tr (i + 1) fuel
        (r, n, [TalkEvent.flushInput, TalkEvent.writeAttempt false, TalkEvent.backoffMs 100] ++ evs)
    else
      match tr.readResult i with
      | none =>
        if fuel = 0 then
          (none, i + 1, [TalkEvent.flushInput, TalkEvent.writeAttempt true, TalkEvent.readError])
        else
          let (r, n, evs) := talkLoop tr (i + 1) fuel
          (r, n, [TalkEvent.flushInput, TalkEvent.writeAttempt true, TalkEvent.readError,
                  TalkEvent.backoffMs 100] ++ evs)
      | some bytes =>
        if bytes.length < 2 then
          if fuel = 0 then
            (none, i + 1, [TalkEvent.flushInput, TalkEvent.writeAttempt true,
                           TalkEvent.readAttempt bytes.length])
          else
            let (r, n, evs) := talkLoop tr (i + 1) fuel
            (r, n, [TalkEvent.flushInput, TalkEvent.writeAttempt true,
                    TalkEvent.readAttempt bytes.length, TalkEvent.backoffMs 100] ++ evs)
        else
          (some bytes, i + 1, [TalkEvent.flushInput, TalkEvent.writeAttempt true,
                               TalkEvent.readAttempt bytes.length])

/-- Outcome of one `TalkWithAxis` exchange: the C return value, the response
payload handed back through `responseStr` (echo character and trailing `0x0D`
stripped), the number of attempts performed, and the event trace. -/
structure TalkOutcome where
  success : Bool
  response : List Char
  attempts : ℕ
  events : List TalkEvent
deriving DecidableEq, Repr

/-- Model of `SkywatcherAPI::TalkWithAxis` (cpp lines 902-979): run the retry
loop; on success cut the trailing `0x0D`, skip the leading `=`/`!`, and treat
a response starting with `!` as a mount error (return value `false`). -/
def TalkWithAxis (tr : SkyTransport) : TalkOutcome :=
  match talkLoop tr 0 SKYWATCHER_MAX_RETRTY with
  | (none, n, evs) => ⟨false, [], n, evs⟩
  | (some bytes, n, evs) =>
    let payload := (bytes.dropLast).drop 1
    if bytes.head? = some (Char.ofNat 33) then
      ⟨false, payload, n, evs⟩
    else
      ⟨true, payload, n, evs⟩

/-! ### Driver state and motion controller
(skywatcherAPI.cpp lines 181-205, 351-410, 557-616, 709-848, 880-900) -/

/-- Update one entry of a per-axis array (`[2]` array in the source). -/
def upd {X : Type} (f : AXISID → X) (a : AXISID) (v : X) : AXISID → X :=
  fun b => if b = a then v else f b

/-- The mutable driver fields touched by the motion operations. -/
structure DriverState where
  axesStatus : AXISID → AXISSTATUS
  slewingSpeed : AXISID → ℚ
  currentEncoders : AXISID → ℤ
  lastSlewToTarget : AXISID → ℤ

/-- The per-session constants queried at initialization and read (never
written) by the motion operations. -/
structure MountConfig where
  supportAdvancedCommandSet : Bool
  silentSlewMode : Bool
  mcVersion : ℕ
  highSpeedRatio : AXISID → ℤ
  stepperClockFrequency : AXISID → ℕ
  microstepsPerRadian : AXISID → ℚ
  lowSpeedGotoMargin : AXISID → ℤ

/-- Commands sent over the wire by the motion operations (one constructor per
`TalkWithAxis` call site; the payload already decoded from / not yet encoded
into its hex form). -/
inductive Cmd
  | getStatus (axis : AXISID)
  | getEncoder (axis : AXISID)
  | slowStop (axis : AXISID)
  | setMotionMode (axis : AXISID) (func dir : Char)
  | setClockTicksPerMicrostep (axis : AXISID) (ticks : ℤ)
  | startMotion (axis : AXISID)
  | setGotoTargetOffset (axis : AXISID) (offset : ℤ)
  | setSlewToRampLength (axis : AXISID) (microsteps : ℤ)
  | setSpeedAdvanced (axis : AXISID) (rate : ℤ)
deriving DecidableEq, Repr

/-- Oracle for the exchanges a motion operation performs: the status responses
consumed by successive `GetStatus` calls and the raw responses consumed by
successive legacy `GetEncoder` calls.  An exhausted list models a failed
`TalkWithAxis`. -/
structure MotionEnv where
  statuses : List StatusResponse
  encoders : List (List Char)

/-- The legacy branch of `SkywatcherAPI::GetEncoder` (cpp lines 193-204) after
the transport outcome is known: on a failed exchange return `false` leaving
the encoder alone; otherwise decode with `BCDstr2long` and update
`CurrentEncoders` only when the decoded value is strictly positive, returning
`true` either way. -/
def GetEncoderLegacy (talkOk : Bool) (response : List Char) (current : ℤ) : Bool × ℤ :=
  if !talkOk then (false, current)
  else
    let microsteps : ℤ := toSigned64 (BCDstr2long response)
    if microsteps > 0 then (true, microsteps) else (true, current)

/-- `SkywatcherAPI::GetEncoder` (legacy command set) as a step of the motion
model: consume one raw response from the environment and apply
`GetEncoderLegacy`.  Returns the C return value, the new state, the commands
sent, and the remaining environment. -/
def getEncoderM (env : MotionEnv) (st : DriverState) (axis : AXISID) :
    Bool × DriverState × List Cmd × MotionEnv :=
  match env.encoders with
  | [] => (false, st, [Cmd.getEncoder axis], env)
  | r :: rest =>
    let enc := (GetEncoderLegacy true r (st.currentEncoders axis)).2
    (true, { st with currentEncoders := upd st.currentEncoders axis enc },
     [Cmd.getEncoder axis], { env with encoders := rest })

/-- Model of `SkywatcherAPI::GetStatus` (cpp lines 351-410) as a step of the
motion model: consume one status response; when the axis reports stopped and
the previously cached phase was `SlewingTo`, first refresh the encoder (the
source calls `GetEncoder` and discards its result); then overwrite the cached
flags with `decodeStatus`. -/
def getStatusM (env : MotionEnv) (st : DriverState) (axis : AXISID) :
    Bool × DriverState × List Cmd × MotionEnv :=
  match env.statuses with
  | [] => (false, st, [Cmd.getStatus axis], env)
  | r :: rest =>
    let env1 : MotionEnv := { env with statuses := rest }
    let (st1, tr1, env2) :=
      if r.b1 &&& 0x01 = 0 ∧ (st.axesStatus axis).SlewingTo = true then
        let (_ok, st1, tr1, env2) := getEncoderM env1 st axis
        (st1, tr1, env2)
      else (st, [], env1)
    let st2 := { st1 with axesStatus := upd st1.axesStatus axis (decodeStatus (st1.axesStatus axis) r) }
    (true, st2, Cmd.getStatus axis :: tr1, env2)

/-- The stop-confirmation polling loop of `PrepareForSlewing` and `SlewTo`
(cpp lines 579-588 and 821-830): repoll `GetStatus` every 100 ms until the
axis reports `FullStop`.  The source loop is unbounded; `fuel` bounds the
observation so the model stays total (running out of fuel returns the state
reached so far). -/
def waitStop (fuel : ℕ) (env : MotionEnv) (st : DriverState) (axis : AXISID) :
    DriverState × List Cmd × MotionEnv :=
  match fuel with
  | 0 => (st, [], env)
  | fuel + 1 =>
    let (_ok, st1, tr1, env1) := getStatusM env st axis
    if (st1.axesStatus axis).FullStop then (st1, tr1, env1)
    else
      let (st2, tr2, env2) := waitStop fuel env1 st1 axis
      (st2, tr1 ++ tr2, env2)

/-- The motion-mode selection at the end of `SkywatcherAPI::PrepareForSlewing`
(cpp lines 591-603): resolve the direction character from the sign of the
rate, make the rate positive, then select `'3'` (high-speed slew) when the
rate is strictly above `LOW_SPEED_MARGIN` and `'1'` (low-speed slew)
otherwise.  Returns `(Func, Direction)`. -/
def prepareModeChars (speed : ℚ) : Char × Char :=
  let dir : Char := if speed > 0 then Char.ofNat 48 else Char.ofNat 49
  let s : ℚ := if speed > 0 then speed else -speed
  if s > LOW_SPEED_MARGIN then (Char.ofNat 51, dir) else (Char.ofNat 49, dir)

/-- Model of `SkywatcherAPI::PrepareForSlewing` (cpp lines 557-604).  Called
only on the legacy path, where `SlowStop` reduces to the `:K` exchange (cpp
lines 888-891), inlined here as `Cmd.slowStop`.  A failed status refresh
returns immediately; a running axis is slow-stopped and polled to a stop when
a slew-to is in progress, high speed is engaged, the requested magnitude
reaches `LOW_SPEED_MARGIN`, or the direction reverses — otherwise the
function returns without touching the motion mode.  Finally the motion mode
is selected by `prepareModeChars`. -/
def PrepareForSlewing (fuel : ℕ) (env : MotionEnv) (st : DriverState) (axis : AXISID)
    (speed : ℚ) : DriverState × List Cmd × MotionEnv :=
  let (ok, st1, tr1, env1) := getStatusM env st axis
  if !ok then (st1, tr1, env1)
  else
    let a := st1.axesStatus axis
    if ¬ a.FullStop ∧
        ¬ (a.SlewingTo = true ∨ a.HighSpeed = true ∨ |speed| ≥ LOW_SPEED_MARGIN ∨
           (a.SlewingForward = true ∧ speed < 0) ∨ (a.SlewingForward = false ∧ speed > 0)) then
      (st1, tr1, env1)
    else
      let (st2, tr2, env2) :=
        if ¬ a.FullStop then
          let (st2, tr2, env2) := waitStop fuel env1 st1 axis
          (st2, Cmd.slowStop axis :: tr2, env2)
        else (st1, [], env1)
      let (func, dir) := prepareModeChars speed
      (st2, tr1 ++ tr2 ++ [Cmd.setMotionMode axis func dir], env2)

/-- Model of `SkywatcherAPI::RadiansToMicrosteps` (cpp lines 613-616). -/
def RadiansToMicrosteps (cfg : MountConfig) (axis : AXISID) (angle : ℚ) : ℤ :=
  truncQ (angle * cfg.microstepsPerRadian axis)

/-- Model of `SkywatcherAPI::RadiansPerSecondToClocksTicksPerMicrostep`
(cpp lines 606-611): `(long)(StepperClockFrequency / (rate *
MicrostepsPerRadian))`. -/
def RadiansPerSecondToClocksTicksPerMicrostep (cfg : MountConfig) (axis : AXISID)
    (rate : ℚ) : ℤ :=
  truncQ ((cfg.stepperClockFrequency axis : ℚ) / (rate * cfg.microstepsPerRadian axis))

/-- Model of `SkywatcherAPI::Slew` (cpp lines 709-778).  The outer `Forward`
and `HighSpeed` locals (cpp lines 711-712) are `forward0`/`highSpeed0`; the
legacy branch re-declares both names (cpp lines 749 and 758), so the values it
computes shadow — and never reach — the variables that the final
`SetSlewing` call reads; the shadowed pair is `forwardShadow`/
`highSpeedShadow` here and is used, as in the source, only to adjust the
internal speed.  The advanced branch is modelled with its rate payload
`RadiansToMicrosteps(speed) * 1024`; the legacy near-zero branch slow-stops
and returns without touching the status. -/
def Slew (cfg : MountConfig) (fuel : ℕ) (env : MotionEnv) (st : DriverState) (axis : AXISID)
    (speedRequested : ℚ) (ignoreSilentMode : Bool) : DriverState × List Cmd × MotionEnv :=
  let forward0 : Bool := false
  let highSpeed0 : Bool := false
  let speed : ℚ :=
    if speedRequested > MAX_SPEED then MAX_SPEED
    else if speedRequested < -MAX_SPEED then -MAX_SPEED
    else speedRequested
  if cfg.supportAdvancedCommandSet then
    let forward1 : Bool := if speed > 0 then true else forward0
    ({ st with
        axesStatus := upd st.axesStatus axis ((st.axesStatus axis).SetSlewing forward1 highSpeed0),
        slewingSpeed := upd st.slewingSpeed axis speed },
     [Cmd.setSpeedAdvanced axis (RadiansToMicrosteps cfg axis speed * 1024)], env)
  else
    if |speed| ≤ SIDEREALRATE / 1000 then
      (st, [Cmd.slowStop axis], env)
    else
      let (st1, tr1, env1) := PrepareForSlewing fuel env st axis speed
      let (internal1, forwardShadow) : ℚ × Bool :=
        if speed > 0 then (speed, true) else (-speed, false)
      let (internal2, highSpeedShadow) : ℚ × Bool :=
        if internal1 > LOW_SPEED_MARGIN ∧ (ignoreSilentMode = true ∨ cfg.silentSlewMode = false)
        then (internal1 / (cfg.highSpeedRatio axis : ℚ), true)
        else (internal1, false)
      -- The source never reads `forwardShadow`/`highSpeedShadow` again: the
      -- trailing `SetSlewing` uses the outer (still-initial) pair.
      let _shadowed : Bool × Bool := (forwardShadow, highSpeedShadow)
      let speedInt1 : ℤ := RadiansPerSecondToClocksTicksPerMicrostep cfg axis internal2
      let speedInt2 : ℤ :=
        if cfg.mcVersion = 0x010600 ∨ cfg.mcVersion = 0x0010601 then speedInt1 - 3 else speedInt1
      let speedInt : ℤ := if speedInt2 < 6 then 6 else speedInt2
      ({ st1 with
          axesStatus := upd st1.axesStatus axis
            ((st1.axesStatus axis).SetSlewing forward0 highSpeed0),
          slewingSpeed := upd st1.slewingSpeed axis speed },
       tr1 ++ [Cmd.setClockTicksPerMicrostep axis speedInt, Cmd.startMotion axis], env1)

/-- Model of `SkywatcherAPI::SlewTo` (cpp lines 780-848), the legacy goto: a
zero offset returns immediately; otherwise record the diagnostic target,
resolve direction and magnitude, decide high speed by comparing the magnitude
against `LowSpeedGotoMargin` (suppressed in silent mode), refresh the status
(a failed refresh aborts), slow-stop and poll to a stop when the usual
conditions hold, then select the goto motion mode, transmit the offset, cap
the deceleration ramp (3200 microsteps high speed, 200 low speed), start the
motion and optimistically mark the axis `SlewingTo`.  The `verbose` flag only
selects logging and has no effect on the model. -/
def SlewTo (cfg : MountConfig) (fuel : ℕ) (env : MotionEnv) (st : DriverState) (axis : AXISID)
    (offsetRequested : ℤ) (verbose : Bool) : DriverState × List Cmd × MotionEnv :=
  let _unused : Bool := verbose
  if offsetRequested = 0 then (st, [], env)
  else
    let st0 := { st with
      lastSlewToTarget := upd st.lastSlewToTarget axis (st.currentEncoders axis + offsetRequested) }
    let (forward, dir, offset) : Bool × Char × ℤ :=
      if offsetRequested < 0 then (false, Char.ofNat 49, -offsetRequested)
      else (true, Char.ofNat 48, offsetRequested)
    let highSpeed : Bool :=
      decide (offset > cfg.lowSpeedGotoMargin axis) && !cfg.silentSlewMode
    let (ok, st1, tr1, env1) := getStatusM env st0 axis
    if !ok then (st1, tr1, env1)
    else
      let a := st1.axesStatus axis
      let (st2, tr2, env2) :=
        if ¬ a.FullStop ∧
            (a.SlewingTo = true ∨ a.HighSpeed = true ∨ highSpeed = true ∨
             (a.SlewingForward = true ∧ forward = false) ∨
             (a.SlewingForward = false ∧ forward = true)) then
          let (st2, tr2, env2) := waitStop fuel env1 st1 axis
          (st2, Cmd.slowStop axis :: tr2, env2)
        else (st1, [], env1)
      let func : Char := if highSpeed then Char.ofNat 48 else Char.ofNat 50
      let ramp : ℤ :=
        if highSpeed then (if offset > 3200 then 3200 else offset)
        else (if offset > 200 then 200 else offset)
      ({ st2 with
          axesStatus := upd st2.axesStatus axis ((st2.axesStatus axis).SetSlewingTo forward highSpeed) },
       tr1 ++ tr2 ++ [Cmd.setMotionMode axis func dir, Cmd.setGotoTargetOffset axis offset,
                      Cmd.setSlewToRampLength axis ramp, Cmd.startMotion axis], env2)

/-! ### Concrete transports, configurations and states used by the theorems -/

/-- Transport stub for the retry claims: `tty_write_string` fails on the
first two attempts; the third attempt succeeds and `tty_read_section` returns
the 2-byte response `=` `CR` (which the source explicitly deems valid). -/
def stubWriteFailsTwice : SkyTransport where
  writeOk := fun i => decide (2 ≤ i)
  readResult := fun _ => some [Char.ofNat 61, Char.ofNat 13]

/-- Transport stub for the retry claims: every write succeeds and every read
returns a single byte (shorter than the 2-byte minimum). -/
def stubShortRead : SkyTransport where
  writeOk := fun _ => true
  readResult := fun _ => some [Char.ofNat 13]

/-- A concrete legacy-mode configuration (no advanced command set, firmware
1.00, high-speed ratio 16, 64935 ticks/s stepper clock, 1,436,254 microsteps
per radian — EQ6-like numbers). -/
def legacyCfg : MountConfig where
  supportAdvancedCommandSet := false
  silentSlewMode := true
  mcVersion := 0x0100
  highSpeedRatio := fun _ => 16
  stepperClockFrequency := fun _ => 64935
  microstepsPerRadian := fun _ => 1436254
  lowSpeedGotoMargin := fun _ => 67027

/-- A freshly constructed driver state (`SkywatcherAPI::SkywatcherAPI`,
cpp lines 67-80: everything zeroed, statuses default-constructed). -/
def freshState : DriverState where
  axesStatus := fun _ => initAxisStatus
  slewingSpeed := fun _ => 0
  currentEncoders := fun _ => 0
  lastSlewToTarget := fun _ => 0

/-- A motion environment holding one status response that reports the axis
stopped, initialized and pointing forward, and no encoder responses. -/
def stoppedEnv : MotionEnv := ⟨[⟨0, 0, 1⟩], []⟩

/-! ### Codec lemmas -/

/-- Decoding a digit the encoder produced recovers the digit. -/
theorem hexVal_hexDigitChar {d : ℕ} (hd : d < 16) : hexVal (hexDigitChar d) = d := by
  interval_cases d <;> decide

/-- One shift-and-or step of `BCDstr2long` is plain positional arithmetic as
long as the accumulator cannot overflow and the incoming digit is a real hex
digit. -/
theorem shiftOrStep {v d : ℕ} (hv : v < 2 ^ 60) (hd : d < 16) :
    (v <<< 4) % 2 ^ 64 ||| d = 16 * v + d := by
  have h1 : v <<< 4 = v * 2 ^ 4 := Nat.shiftLeft_eq v 4
  have h2 : v * 2 ^ 4 < 2 ^ 64 := by nlinarith [hv]
  have h3 := (Nat.mul_add_lt_is_or (i := 4) hd v).symm
  rw [h1, Nat.mod_eq_of_lt h2, mul_comm v (2 ^ 4), h3]

/-- The byte mask `n & 0xff` is reduction modulo 256. -/
theorem and_ff_eq_mod (n : ℕ) : n &&& 0xff = n % 256 := by
  have := Nat.and_pow_two_sub_one_eq_mod n 8
  norm_num at this
  exact this

/-- The masked shift `(n & 0xff00) >> 8` extracts the second byte. -/
theorem and_ff00_shift (n : ℕ) : (n &&& 0xff00) >>> 8 = n / 256 % 256 := by
  have hb : (0xff00 : ℕ) = 0xff <<< 8 := by decide
  have h1 : (n &&& 0xff00) >>> 8 = (n >>> 8) &&& 0xff := by
    apply Nat.eq_of_testBit_eq
    intro j
    simp only [Nat.testBit_shiftRight, Nat.testBit_and, hb, Nat.testBit_shiftLeft]
    simp
  rw [h1, and_ff_eq_mod, Nat.shiftRight_eq_div_pow]

/-- The masked shift `(n & 0xff0000) >> 16` extracts the third byte. -/
theorem and_ff0000_shift (n : ℕ) : (n &&& 0xff0000) >>> 16 = n / 65536 % 256 := by
  have hb : (0xff0000 : ℕ) = 0xff <<< 16 := by decide
  have h1 : (n &&& 0xff0000) >>> 16 = (n >>> 16) &&& 0xff := by
    apply Nat.eq_of_testBit_eq
    intro j
    simp only [Nat.testBit_shiftRight, Nat.testBit_and, hb, Nat.testBit_shiftLeft]
    simp
  rw [h1, and_ff_eq_mod, Nat.shiftRight_eq_div_pow]

/-- `BCDstr2long` applied to an explicit six-character string of genuine hex
digits reassembles them positionally in the source's swapped order. -/
theorem BCDstr2long_digits {d0 d1 d2 d3 d4 d5 : ℕ}
    (h0 : d0 < 16) (h1 : d1 < 16) (h2 : d2 < 16) (h3 : d3 < 16) (h4 : d4 < 16) (h5 : d5 < 16) :
    BCDstr2long [hexDigitChar d0, hexDigitChar d1, hexDigitChar d2, hexDigitChar d3,
        hexDigitChar d4, hexDigitChar d5] =
      d4 * 16 ^ 5 + d5 * 16 ^ 4 + d2 * 16 ^ 3 + d3 * 16 ^ 2 + d0 * 16 + d1 := by
  simp only [BCDstr2long]
  rw [hexVal_hexDigitChar h0, hexVal_hexDigitChar h1, hexVal_hexDigitChar h2,
      hexVal_hexDigitChar h3, hexVal_hexDigitChar h4, hexVal_hexDigitChar h5]
  rw [shiftOrStep (by omega) h5]
  rw [shiftOrStep (by nlinarith) h2]
  rw [shiftOrStep (by nlinarith) h3]
  rw [shiftOrStep (by nlinarith) h0]
  rw [shiftOrStep (by nlinarith) h1]
  ring

/-- How `Long2BCDstr` lays out the three bytes of its argument. -/
theorem Long2BCDstr_eq (n : ℕ) :
    Long2BCDstr n = [hexDigitChar (n % 256 / 16), hexDigitChar (n % 256 % 16),
      hexDigitChar (n / 256 % 256 / 16), hexDigitChar (n / 256 % 256 % 16),
      hexDigitChar (n / 65536 % 256 / 16), hexDigitChar (n / 65536 % 256 % 16)] := by
  simp [Long2BCDstr, byteToHexPair, and_ff_eq_mod, and_ff00_shift, and_ff0000_shift]

/-- C1, counterexample to the claimed asymmetry: at the concrete 24-bit value
`0x123456`, `BCDstr2long` applied directly to the `Long2BCDstr` output — with
no byte-pair reversal by the caller — reproduces the value. -/
theorem BCD_roundtrip_concrete : BCDstr2long (Long2BCDstr 0x123456) = 0x123456 := by
  decide

/-- C1, amended: for every 24-bit integer the direct composition
`BCDstr2long (Long2BCDstr n)` equals `n`: the encoder emits the bytes low to
high as hex pairs and the decoder reassembles exactly that layout (pairs
`[4,5]`, `[2,3]`, `[0,1]` from most to least significant), so the two byte
orders match and no extra byte-pair reversal is needed. -/
theorem BCD_roundtrip_is_identity (n : ℕ) (h : n < 2 ^ 24) :
    BCDstr2long (Long2BCDstr n) = n := by
  rw [Long2BCDstr_eq,
    BCDstr2long_digits (by omega) (by omega) (by omega) (by omega) (by omega) (by omega)]
  omega

/-- Witness instantiating `BCD_roundtrip_is_identity` at `0xABCDEF`. -/
theorem BCD_roundtrip_is_identity_witness :
    11259375 < 2 ^ 24 ∧ BCDstr2long (Long2BCDstr 11259375) = 11259375 :=
  ⟨by norm_num, BCD_roundtrip_is_identity 11259375 (by norm_num)⟩

/-- C5, counterexample: decode of a wrong-length string returns the ordinary
numeric value 0, exactly what the successful decode of an all-zero payload
returns — not a distinguishable failure; and a payload with the invalid hex
digit `G` decodes to the same ordinary numeric value as a valid payload. -/
theorem decode_failure_indistinguishable :
    BCDstr2long [Char.ofNat 49, Char.ofNat 50, Char.ofNat 51, Char.ofNat 52, Char.ofNat 53] = 0 ∧
    BCDstr2long (List.replicate 6 (Char.ofNat 48)) = 0 ∧
    Highstr2long [Char.ofNat 55] = 0 ∧
    Highstr2long [Char.ofNat 48, Char.ofNat 48] = 0 ∧
    BCDstr2long [Char.ofNat 48, Char.ofNat 48, Char.ofNat 48, Char.ofNat 48,
        Char.ofNat 49, Char.ofNat 71] =
      BCDstr2long [Char.ofNat 48, Char.ofNat 48, Char.ofNat 48, Char.ofNat 48,
        Char.ofNat 49, Char.ofNat 48] := by
  decide

/-- C5, amended: on a wrong-length input the decoders do not fail in any
distinguishable way — they return the in-band value 0, which coincides with
the successful decode of an all-zero payload — and an invalid hex digit is
not detected at all (the unchecked `HEX` arithmetic just produces a number,
here `0x100000` for a payload containing `G`). -/
theorem decoders_return_zero_sentinel :
    (∀ s : List Char, s.length ≠ 6 → BCDstr2long s = 0) ∧
    (∀ s : List Char, s.length < 2 → Highstr2long s = 0) ∧
    BCDstr2long (List.replicate 6 (Char.ofNat 48)) = 0 ∧
    BCDstr2long [Char.ofNat 48, Char.ofNat 48, Char.ofNat 48, Char.ofNat 48,
        Char.ofNat 49, Char.ofNat 71] = 1048576 := by
  refine ⟨?_, ?_, by decide, by decide⟩
  · intro s h
    unfold BCDstr2long
    split
    · simp_all
    · rfl
  · intro s h
    unfold Highstr2long
    split
    · simp only [List.length_cons] at h
      omega
    · rfl

/-- Witness instantiating `decoders_return_zero_sentinel` at concrete
wrong-length inputs. -/
theorem decoders_return_zero_sentinel_witness :
    ([Char.ofNat 49] : List Char).length ≠ 6 ∧ BCDstr2long [Char.ofNat 49] = 0 ∧
    ([Char.ofNat 49] : List Char).length < 2 ∧ Highstr2long [Char.ofNat 49] = 0 :=
  ⟨by decide, decoders_return_zero_sentinel.1 [Char.ofNat 49] (by decide),
   by decide, decoders_return_zero_sentinel.2.1 [Char.ofNat 49] (by decide)⟩

/-- C10: on the legacy path, once the exchange itself succeeded, `GetEncoder`
returns `true` whatever the decoded value; a non-positive decode leaves
`CurrentEncoders` unchanged, and a strictly positive decode stores it. -/
theorem getEncoder_nonpositive_frame (r : List Char) (cur : ℤ) :
    (GetEncoderLegacy true r cur).1 = true ∧
    (toSigned64 (BCDstr2long r) ≤ 0 → GetEncoderLegacy true r cur = (true, cur)) ∧
    (0 < toSigned64 (BCDstr2long r) →
      GetEncoderLegacy true r cur = (true, toSigned64 (BCDstr2long r))) := by
  have e : GetEncoderLegacy true r cur =
      if 0 < toSigned64 (BCDstr2long r) then (true, toSigned64 (BCDstr2long r))
      else (true, cur) := by
    simp [GetEncoderLegacy]
  refine ⟨?_, fun h => ?_, fun h => ?_⟩
  · rw [e]
    split <;> rfl
  · rw [e, if_neg (by omega)]
  · rw [e, if_pos h]

/-- Witness instantiating `getEncoder_nonpositive_frame` on a zero-decoding
response (length 5) and on a response decoding to `0x123456`. -/
theorem getEncoder_nonpositive_frame_witness :
    (toSigned64 (BCDstr2long [Char.ofNat 49, Char.ofNat 50, Char.ofNat 51, Char.ofNat 52,
        Char.ofNat 53]) ≤ 0 ∧
      GetEncoderLegacy true [Char.ofNat 49, Char.ofNat 50, Char.ofNat 51, Char.ofNat 52,
        Char.ofNat 53] 42 = (true, 42)) ∧
    (0 < toSigned64 (BCDstr2long [Char.ofNat 53, Char.ofNat 54, Char.ofNat 51, Char.ofNat 52,
        Char.ofNat 49, Char.ofNat 50]) ∧
      GetEncoderLegacy true [Char.ofNat 53, Char.ofNat 54, Char.ofNat 51, Char.ofNat 52,
        Char.ofNat 49, Char.ofNat 50] 42 =
        (true, toSigned64 (BCDstr2long [Char.ofNat 53, Char.ofNat 54, Char.ofNat 51,
          Char.ofNat 52, Char.ofNat 49, Char.ofNat 50]))) :=
  ⟨⟨by decide, (getEncoder_nonpositive_frame _ 42).2.1 (by decide)⟩,
   ⟨by decide, (getEncoder_nonpositive_frame _ 42).2.2 (by decide)⟩⟩

/-- C3, counterexample: with mount-type `_114GT` (0x82) and the concrete
nonzero firmware reading 0x123456, the stored microsteps-per-revolution is
1387567, not the fixed value 0x205318 = 2118424: after the 114GT override the
Merlin scaling fires too, because 0x82 lies in the Merlin range
[0x80, 0x90). -/
theorem microsteps_114GT_not_fixed :
    microstepsPerRevolutionStored _114GT 0x123456 = some 1387567 ∧
    microstepsPerRevolutionStored _114GT 0x123456 ≠ some 0x205318 := by
  have e : microstepsPerRevolutionStored _114GT 0x123456 = some 1387567 := by
    norm_num [microstepsPerRevolutionStored, _114GT, IsMerlinMount, truncQ]
  exact ⟨e, by rw [e]; norm_num⟩

/-- C3, amended: for mount-type 0x82 exactly, after a successful
`GetMicrostepsPerRevolution`, the stored value is independent of the
firmware-reported resolution, but it equals
`(long)(0x205318 * 0.655) = 1387567` — the fixed 114GT override scaled by the
Merlin factor — rather than 0x205318 itself. -/
theorem microsteps_114GT_value (v : ℤ) (hv : v ≠ 0) :
    microstepsPerRevolutionStored _114GT v = some 1387567 := by
  unfold microstepsPerRevolutionStored
  rw [if_neg hv]
  norm_num [_114GT, IsMerlinMount, truncQ]

/-- Witness instantiating `microsteps_114GT_value` at firmware reading 7. -/
theorem microsteps_114GT_value_witness :
    (7 : ℤ) ≠ 0 ∧ microstepsPerRevolutionStored _114GT 7 = some 1387567 :=
  ⟨by norm_num, microsteps_114GT_value 7 (by norm_num)⟩

/-- C4, counterexample: at 9,024,000 microsteps per revolution, the margin
the code computes — `(long)(640 * SIDEREALRATE * MicrostepsPerRadian)`, the
distance of 5 seconds at 128× sidereal — is 67,027 microsteps, while the
claimed `5 * 640 * SIDEREALRATE * MicrostepsPerRadian` would truncate to
335,137. -/
theorem lowSpeedGotoMargin_not_five_times :
    LowSpeedGotoMarginCalc (MicrostepsPerRadianCalc 9024000) = 67027 ∧
    truncQ (5 * 640 * SIDEREALRATE * MicrostepsPerRadianCalc 9024000) = 335137 ∧
    (67027 : ℤ) ≠ 335137 := by
  refine ⟨?_, ?_, by norm_num⟩ <;>
    norm_num [LowSpeedGotoMarginCalc, MicrostepsPerRadianCalc, SIDEREALRATE, mpi, truncQ]

/-- C4, amended: for every microsteps-per-revolution value `m`, the stored
`LowSpeedGotoMargin` is `(long)(640 * SIDEREALRATE * MicrostepsPerRadian)`
— 640 = 5 · 128 already contains the 5 seconds, at 128× (not 640×) sidereal
rate — which, after the factors of π cancel, is exactly
`⌊640 · m / 86164.09065⌋` microsteps. -/
theorem lowSpeedGotoMargin_formula (m : ℕ) :
    LowSpeedGotoMarginCalc (MicrostepsPerRadianCalc m) = ⌊(640 * m : ℚ) / 86164.09065⌋ := by
  unfold LowSpeedGotoMarginCalc MicrostepsPerRadianCalc truncQ
  have hpi : (0 : ℚ) < mpi := by norm_num [mpi]
  have hpi2 : (2 : ℚ) * mpi ≠ 0 := by positivity
  have harg : 640 * SIDEREALRATE * ((m : ℚ) / (2 * mpi)) = (640 * m : ℚ) / 86164.09065 := by
    unfold SIDEREALRATE
    field_simp
    ring
  rw [harg, if_neg (not_lt.mpr (by positivity))]

/-- C8: in the legacy mode selection of `PrepareForSlewing`, a rate whose
magnitude is exactly `LOW_SPEED_MARGIN` (either sign) selects the low-speed
slew motion mode `'1'`, and any rate of strictly greater magnitude selects
the high-speed slew motion mode `'3'`. -/
theorem prepare_mode_threshold :
    (prepareModeChars LOW_SPEED_MARGIN).1 = Char.ofNat 49 ∧
    (prepareModeChars (-LOW_SPEED_MARGIN)).1 = Char.ofNat 49 ∧
    ∀ s : ℚ, LOW_SPEED_MARGIN < |s| → (prepareModeChars s).1 = Char.ofNat 51 := by
  have hm : (0 : ℚ) < LOW_SPEED_MARGIN := by
    norm_num [LOW_SPEED_MARGIN, SIDEREALRATE, mpi]
  refine ⟨?_, ?_, fun s hs => ?_⟩
  · simp only [prepareModeChars]
    rw [if_pos hm, if_neg (lt_irrefl _)]
  · have h0 : ¬ (-LOW_SPEED_MARGIN > 0) := by linarith
    simp only [prepareModeChars, if_neg h0, neg_neg, if_neg (lt_irrefl LOW_SPEED_MARGIN)]
  · simp only [prepareModeChars]
    rcases lt_or_le 0 s with h | h
    · rw [abs_of_pos h] at hs
      rw [if_pos h, if_pos hs]
    · rw [abs_of_nonpos h] at hs
      rw [if_neg (not_lt.mpr h), if_pos hs]

/-- Witness instantiating `prepare_mode_threshold` at rate 1 rad/s. -/
theorem prepare_mode_threshold_witness :
    LOW_SPEED_MARGIN < |(1 : ℚ)| ∧ (prepareModeChars 1).1 = Char.ofNat 51 :=
  ⟨by norm_num [LOW_SPEED_MARGIN, SIDEREALRATE, mpi],
   prepare_mode_threshold.2.2 1 (by norm_num [LOW_SPEED_MARGIN, SIDEREALRATE, mpi])⟩

/-- Every status decode yields exactly one motion-phase flag. -/
theorem exactlyOnePhase_decodeStatus (prev : AXISSTATUS) (r : StatusResponse) :
    exactlyOnePhase (decodeStatus prev r) := by
  simp only [decodeStatus]
  split_ifs <;> simp [exactlyOnePhase]

/-- Reading back the entry just written to a per-axis array. -/
theorem upd_same {X : Type} (f : AXISID → X) (a : AXISID) (v : X) : upd f a v a = v := by
  simp [upd]

/-- C6: after any successful status decode — both the pure flag decoding and
a full modelled `GetStatus` step, including the encoder-refresh path — and
after any `SetFullStop`, `SetSlewing` or `SetSlewingTo` transition, exactly
one of the flags `FullStop`, `Slewing`, `SlewingTo` is true. -/
theorem axis_status_phase_exclusive :
    (∀ (prev : AXISSTATUS) (r : StatusResponse), exactlyOnePhase (decodeStatus prev r)) ∧
    (∀ a : AXISSTATUS, exactlyOnePhase a.SetFullStop) ∧
    (∀ (a : AXISSTATUS) (f h : Bool), exactlyOnePhase (a.SetSlewing f h)) ∧
    (∀ (a : AXISSTATUS) (f h : Bool), exactlyOnePhase (a.SetSlewingTo f h)) ∧
    (∀ (r : StatusResponse) (rest : List StatusResponse) (encs : List (List Char))
        (st : DriverState) (axis : AXISID),
      exactlyOnePhase (((getStatusM ⟨r :: rest, encs⟩ st axis).2.1).axesStatus axis)) := by
  refine ⟨exactlyOnePhase_decodeStatus, fun a => ?_, fun a f h => ?_, fun a f h => ?_,
    fun r rest encs st axis => ?_⟩
  · simp [AXISSTATUS.SetFullStop, exactlyOnePhase]
  · simp [AXISSTATUS.SetSlewing, exactlyOnePhase]
  · simp [AXISSTATUS.SetSlewingTo, exactlyOnePhase]
  · rcases encs with _ | ⟨e, es⟩ <;>
      by_cases hc : (r.b1 &&& 0x01 = 0 ∧ (st.axesStatus axis).SlewingTo = true) <;>
      simp [getStatusM, getEncoderM, hc, upd_same, exactlyOnePhase_decodeStatus]

/-- C7: the exchange primitive attempts at most `SKYWATCHER_MAX_RETRTY = 3`
tries.  With a transport whose write fails twice and then succeeds with a
valid response, the exchange succeeds after exactly 3 attempts; with a
transport that always returns a 1-byte response, it fails after exactly 3
attempts.  The traces show that every attempt is preceded by an input flush
and every non-final failed attempt is followed by a 100 ms backoff. -/
theorem talk_retry_behavior :
    TalkWithAxis stubWriteFailsTwice =
      ⟨true, [], 3,
        [TalkEvent.flushInput, TalkEvent.writeAttempt false, TalkEvent.backoffMs 100,
         TalkEvent.flushInput, TalkEvent.writeAttempt false, TalkEvent.backoffMs 100,
         TalkEvent.flushInput, TalkEvent.writeAttempt true, TalkEvent.readAttempt 2]⟩ ∧
    TalkWithAxis stubShortRead =
      ⟨false, [], 3,
        [TalkEvent.flushInput, TalkEvent.writeAttempt true, TalkEvent.readAttempt 1,
         TalkEvent.backoffMs 100,
         TalkEvent.flushInput, TalkEvent.writeAttempt true, TalkEvent.readAttempt 1,
         TalkEvent.backoffMs 100,
         TalkEvent.flushInput, TalkEvent.writeAttempt true, TalkEvent.readAttempt 1]⟩ := by
  constructor <;> decide

/-- C9: a `SlewTo` request with offset 0 is a complete no-op — no command is
sent and the driver state (the whole record, `AxesStatus` included) is
returned unchanged, for every configuration, environment, axis and verbosity
setting. -/
theorem slewTo_zero_offset_noop (cfg : MountConfig) (fuel : ℕ) (env : MotionEnv)
    (st : DriverState) (axis : AXISID) (verbose : Bool) :
    SlewTo cfg fuel env st axis 0 verbose = (st, [], env) := by
  simp [SlewTo]

/-- C2 (code defect), evaluated at a concrete failing input: in legacy mode,
with the axis initially stopped, `Slew(AXIS1, +0.01 rad/s, ignoreSilentMode)`
resolves the positive direction and selects — and transmits — the high-speed
slew motion mode `'3'`, yet the final status records `Slewing = true` with
`SlewingForward = false` and `HighSpeed = false`: the legacy branch of `Slew`
re-declares `Forward` and `HighSpeed`, shadowing the outer variables that the
trailing `SetSlewing` call reads, so the resolved flags never reach
`AxesStatus`.  The (unclamped, here already in range) requested rate is
recorded in `SlewingSpeed`. -/
theorem slew_shadowed_flags_bug :
    (((Slew legacyCfg 0 stoppedEnv freshState AXISID.AXIS1 (1 / 100) true).1.axesStatus
        AXISID.AXIS1).Slewing = true) ∧
    (((Slew legacyCfg 0 stoppedEnv freshState AXISID.AXIS1 (1 / 100) true).1.axesStatus
        AXISID.AXIS1).SlewingForward = false) ∧
    (((Slew legacyCfg 0 stoppedEnv freshState AXISID.AXIS1 (1 / 100) true).1.axesStatus
        AXISID.AXIS1).HighSpeed = false) ∧
    ((Slew legacyCfg 0 stoppedEnv freshState AXISID.AXIS1 (1 / 100) true).2.1 =
      [Cmd.getStatus AXISID.AXIS1,
       Cmd.setMotionMode AXISID.AXIS1 (Char.ofNat 51) (Char.ofNat 48),
       Cmd.setClockTicksPerMicrostep AXISID.AXIS1 72, Cmd.startMotion AXISID.AXIS1]) ∧
    ((Slew legacyCfg 0 stoppedEnv freshState AXISID.AXIS1 (1 / 100) true).1.slewingSpeed
        AXISID.AXIS1 = 1 / 100) := by
  have habs : |(1 / 100 : ℚ)| = 1 / 100 := abs_of_pos (by norm_num)
  norm_num [Slew, PrepareForSlewing, getStatusM, getEncoderM, decodeStatus, prepareModeChars,
    legacyCfg, freshState, stoppedEnv, upd, MAX_SPEED, LOW_SPEED_MARGIN, SIDEREALRATE, mpi,
    truncQ, RadiansPerSecondToClocksTicksPerMicrostep, AXISSTATUS.SetSlewing, initAxisStatus,
    waitStop, habs]

end Skywatcher
